import Mathlib

/-!
Verification development for the HT7017 single-phase energy-metering driver
(OpenBK7231T_App, `src/driver/drv_ht7017.c` and its sibling implementations).

Shallow embedding conventions:
* `uint8_t` / `uint32_t` values are embedded as `Nat` with explicit `% 2^w`
  truncation exactly where the C code truncates; `(uint8_t)~x` for `x < 256`
  is `255 - x`.
* The UART ring buffer is a FIFO list of bytes (`rx`, head = oldest byte);
  the transmit side is recorded as the trace of bytes sent (`tx`).
* C `float` measurement and calibration values are embedded as exact rational
  numbers (`ℚ`); the properties verified here concern integer decoding,
  sign handling and control flow, not floating-point rounding.
* Logging and `CHANNEL_Set` calls are external side effects and are not part
  of the driver state.

The repository contains several re-implementations of the same driver:
* `V3` — the table-driven driver of `drv_ht7017.c` (first translation unit),
  with the `g_waiting` / `g_readyToSend` handshake;
* `V4` — the table-driven driver of the sibling file (part_003), which has no
  handshake flags and performs the miss / retry bookkeeping entirely inside
  `HT7017_RunEverySecond`;
* `PP` — the switch-based `HT7017_ProcessPacket` decoder (second translation
  unit of `drv_ht7017.c`; its array subscripts are corrupted in that copy and
  are taken from the textually clean copy of the same function in part_001,
  lines 242-294);
* `PR` — the `HT7017_ProcessResponse` decoder of part_002 (second half), which
  checksums only the three data bytes and keeps processing after a checksum
  failure;
* `P1` — the `HT7017_RunQuick` collector of part_001 (first half), which reads
  four bytes with `UART_GetRawData` but never consumes them.
-/

namespace HT7017

/-- `HT7017_FRAME_HEAD` (0x6A), the fixed request-frame header byte. -/
def FRAME_HEAD : Nat := 0x6A

/-- `HT7017_REG_RMS_I1` — current channel 1 RMS register address. -/
def HT7017_REG_RMS_I1 : Nat := 0x06

/-- `HT7017_REG_RMS_U` — voltage RMS register address. -/
def HT7017_REG_RMS_U : Nat := 0x08

/-- `HT7017_REG_FREQ` — line-frequency register address. -/
def HT7017_REG_FREQ : Nat := 0x09

/-- `HT7017_REG_POWER_P1` — active-power channel 1 register address. -/
def HT7017_REG_POWER_P1 : Nat := 0x0A

/-- `HT7017_RESPONSE_LEN` — a response frame is exactly 4 bytes. -/
def HT7017_RESPONSE_LEN : Nat := 4

/-- `HT7017_VOLTAGE_SCALE` = 11015.3f, as an exact rational. -/
def HT7017_VOLTAGE_SCALE : ℚ := 110153 / 10

/-- `HT7017_CURRENT_SCALE` = 1.0f. -/
def HT7017_CURRENT_SCALE : ℚ := 1

/-- `HT7017_POWER_SCALE` = 1.0f. -/
def HT7017_POWER_SCALE : ℚ := 1

/-- `HT7017_FREQ_SCALE` = 100.0f. -/
def HT7017_FREQ_SCALE : ℚ := 100

/-- The UART collaborator: a FIFO receive buffer plus the trace of sent bytes. -/
structure Uart where
  rx : List Nat
  tx : List Nat
deriving DecidableEq, Repr

/-- `UART_GetDataSize()` — number of bytes waiting in the receive buffer. -/
def UART_GetDataSize (u : Uart) : Nat := u.rx.length

/-- `UART_GetByte(i)` — peek (without consuming) the byte at offset `i`. -/
def UART_GetByte (u : Uart) (i : Nat) : Nat := u.rx.getD i 0

/-- `UART_GetRawData(buf, n)` — peek (without consuming) the first `n` bytes. -/
def UART_GetRawData (u : Uart) (n : Nat) : List Nat := u.rx.take n

/-- `UART_ConsumeBytes(n)` — remove the first `n` bytes from the receive buffer. -/
def UART_ConsumeBytes (u : Uart) (n : Nat) : Uart := { u with rx := u.rx.drop n }

/-- `UART_SendByte(b)` — transmit one byte (recorded on the `tx` trace). -/
def UART_SendByte (u : Uart) (b : Nat) : Uart := { u with tx := u.tx ++ [b] }

/-- `HT7017_CalcChecksum` (drv_ht7017.c lines 78-83):
`uint8_t sum = (uint8_t)(HT7017_FRAME_HEAD + reg + d2 + d1 + d0); return (uint8_t)(~sum);`
with `(uint8_t)~x = 255 - x` for `x < 256`. -/
def HT7017_CalcChecksum (reg d2 d1 d0 : Nat) : Nat :=
  255 - (FRAME_HEAD + reg + d2 + d1 + d0) % 256

/-- The response-frame decode shared by the table-driven drivers
(drv_ht7017.c `HT7017_RunQuick` lines 253-267, identically part_003 lines
270-284): compare the received checksum byte against `HT7017_CalcChecksum`
for the in-flight register and, on success, assemble the 24-bit big-endian
raw value `(d2 << 16) | (d1 << 8) | d0`. -/
def decodeFrame (reg d2 d1 d0 cs : Nat) : Option Nat :=
  if cs ≠ HT7017_CalcChecksum reg d2 d1 d0 then none
  else some (d2 <<< 16 ||| d1 <<< 8 ||| d0)

/-- The four measured quantities (targets of the register rotation table). -/
inductive Quantity
  | voltage
  | current
  | power
  | freq
deriving DecidableEq, Repr

/-- The measurement globals `g_voltage, g_current, g_power, g_freq`. -/
structure Meas where
  voltage : ℚ
  current : ℚ
  power : ℚ
  freq : ℚ
deriving DecidableEq, Repr

/-- Store through the `target` pointer of a rotation-table entry. -/
def Meas.set (m : Meas) (q : Quantity) (v : ℚ) : Meas :=
  match q with
  | Quantity.voltage => { m with voltage := v }
  | Quantity.current => { m with current := v }
  | Quantity.power => { m with power := v }
  | Quantity.freq => { m with freq := v }

/-- One row of the register rotation table (`RegRead_t`). -/
structure RegRead where
  reg : Nat
  target : Quantity
  scale : ℚ
deriving DecidableEq, Repr

/-- `g_regTable` (drv_ht7017.c lines 59-64, identical in part_003). -/
def g_regTable : List RegRead :=
  [⟨HT7017_REG_RMS_U, Quantity.voltage, HT7017_VOLTAGE_SCALE⟩,
   ⟨HT7017_REG_RMS_I1, Quantity.current, HT7017_CURRENT_SCALE⟩,
   ⟨HT7017_REG_POWER_P1, Quantity.power, HT7017_POWER_SCALE⟩,
   ⟨HT7017_REG_FREQ, Quantity.freq, HT7017_FREQ_SCALE⟩]

/-- `REG_TABLE_SIZE` — number of rotation-table entries (4). -/
def REG_TABLE_SIZE : Nat := g_regTable.length

/-- `g_regTable[i]`; the C access is in bounds whenever `i < REG_TABLE_SIZE`
(established as an invariant below), so the default entry is never used on
the executions considered. -/
def tableEntry (i : Nat) : RegRead := g_regTable.getD i ⟨0, Quantity.voltage, 1⟩

/-- Driver state of the v3 table-driven driver (drv_ht7017.c lines 54-74). -/
structure V3State where
  uart : Uart
  regIndex : Nat
  waiting : Bool
  readyToSend : Bool
  missCount : Nat
  txCount : Nat
  goodFrames : Nat
  badFrames : Nat
  meas : Meas
deriving DecidableEq, Repr

namespace V3

/-- `HT7017_SendRequest` (drv_ht7017.c lines 85-91): flush every byte still in
the receive buffer, then transmit `[FRAME_HEAD, reg]` and count 2 tx bytes. -/
def sendRequest (s : V3State) (reg : Nat) : V3State :=
  let u := UART_ConsumeBytes s.uart (UART_GetDataSize s.uart)
  let u := UART_SendByte u FRAME_HEAD
  let u := UART_SendByte u reg
  { s with uart := u, txCount := s.txCount + 2 }

/-- Driver state after `HT7017_Init` (drv_ht7017.c lines 160-168):
`g_regIndex = REG_TABLE_SIZE - 1`, flags cleared, counters zeroed,
measurements zero, receive ring buffer empty. -/
def initState : V3State :=
  { uart := ⟨[], []⟩
    regIndex := REG_TABLE_SIZE - 1
    waiting := false
    readyToSend := true
    missCount := 0
    txCount := 0
    goodFrames := 0
    badFrames := 0
    meas := ⟨0, 0, 0, 0⟩ }

/-- `HT7017_RunEverySecond` (drv_ht7017.c lines 182-226). -/
def runEverySecond (s : V3State) : V3State :=
  if s.readyToSend = false then s
  else
    let s1 :=
      if s.waiting then
        let sa : V3State := { s with missCount := s.missCount + 1 }
        let sb : V3State := { sa with
          uart := UART_ConsumeBytes sa.uart (UART_GetDataSize sa.uart)
          waiting := false }
        if 3 ≤ sb.missCount then
          { sb with regIndex := (sb.regIndex + 1) % REG_TABLE_SIZE, missCount := 0 }
        else sb
      else
        { s with regIndex := (s.regIndex + 1) % REG_TABLE_SIZE, missCount := 0 }
    let reg := (tableEntry s1.regIndex).reg
    let s2 := sendRequest s1 reg
    { s2 with waiting := true, readyToSend := false }

/-- `HT7017_RunQuick` (drv_ht7017.c lines 236-278): nothing expected or fewer
than 4 bytes → no-op; otherwise peek the 4 frame bytes, consume them
afterwards, clear the handshake flags, and decode against the register of the
current rotation entry. -/
def runQuick (s : V3State) : V3State :=
  if s.waiting = false then s
  else if UART_GetDataSize s.uart < HT7017_RESPONSE_LEN then s
  else
    let d2 := UART_GetByte s.uart 0
    let d1 := UART_GetByte s.uart 1
    let d0 := UART_GetByte s.uart 2
    let cs := UART_GetByte s.uart 3
    let s1 : V3State := { s with
      uart := UART_ConsumeBytes s.uart HT7017_RESPONSE_LEN
      waiting := false
      readyToSend := true }
    let reg := (tableEntry s1.regIndex).reg
    match decodeFrame reg d2 d1 d0 cs with
    | none => { s1 with badFrames := s1.badFrames + 1 }
    | some raw =>
      let value : ℚ := (raw : ℚ) / (tableEntry s1.regIndex).scale
      let s2 : V3State := { s1 with
        meas := s1.meas.set (tableEntry s1.regIndex).target value }
      { s2 with goodFrames := s2.goodFrames + 1, missCount := 0 }

/-- One scheduler/collector/wire event: a one-second tick, a fast-tick
collector invocation, or bytes arriving on the wire. -/
inductive Step : V3State → V3State → Prop
  | tick (s : V3State) : Step s (runEverySecond s)
  | quick (s : V3State) : Step s (runQuick s)
  | recv (s : V3State) (bs : List Nat) :
      Step s { s with uart := { s.uart with rx := s.uart.rx ++ bs } }

/-- States reachable from initialization by any interleaving of events. -/
inductive Reachable : V3State → Prop
  | init : Reachable initState
  | step {s t : V3State} : Reachable s → Step s t → Reachable t

end V3

/-- Driver state of the v4 driver (part_003 lines 69-73): no handshake flags. -/
structure V4State where
  uart : Uart
  regIndex : Nat
  missCount : Nat
  txCount : Nat
  goodFrames : Nat
  badFrames : Nat
  meas : Meas
deriving DecidableEq, Repr

namespace V4

/-- `HT7017_SendRequest` (part_003 lines 83-89): flush, then send the 2-byte
request. -/
def sendRequest (s : V4State) (reg : Nat) : V4State :=
  let u := UART_ConsumeBytes s.uart (UART_GetDataSize s.uart)
  let u := UART_SendByte u FRAME_HEAD
  let u := UART_SendByte u reg
  { s with uart := u, txCount := s.txCount + 2 }

/-- Driver state after `HT7017_Init` (part_003 lines 157-163). -/
def initState : V4State :=
  { uart := ⟨[], []⟩
    regIndex := REG_TABLE_SIZE - 1
    missCount := 0
    txCount := 0
    goodFrames := 0
    badFrames := 0
    meas := ⟨0, 0, 0, 0⟩ }

/-- `HT7017_RunEverySecond` (part_003 lines 177-248): if a complete response is
waiting, decode it inline (fallback when `RunQuick` is not scheduled) and
advance; otherwise count a miss, flush the stale bytes, and after 3 misses
skip to the next register; finally send the request for the (possibly
unchanged) current register. -/
def runEverySecond (s : V4State) : V4State :=
  let s1 :=
    if HT7017_RESPONSE_LEN ≤ UART_GetDataSize s.uart then
      let d2 := UART_GetByte s.uart 0
      let d1 := UART_GetByte s.uart 1
      let d0 := UART_GetByte s.uart 2
      let cs := UART_GetByte s.uart 3
      let sa : V4State := { s with uart := UART_ConsumeBytes s.uart HT7017_RESPONSE_LEN }
      let reg := (tableEntry sa.regIndex).reg
      let sb :=
        match decodeFrame reg d2 d1 d0 cs with
        | some raw =>
          let value : ℚ := (raw : ℚ) / (tableEntry sa.regIndex).scale
          { sa with
            meas := sa.meas.set (tableEntry sa.regIndex).target value
            goodFrames := sa.goodFrames + 1
            missCount := 0 }
        | none => { sa with badFrames := sa.badFrames + 1 }
      { sb with regIndex := (sb.regIndex + 1) % REG_TABLE_SIZE, missCount := 0 }
    else
      let sa : V4State := { s with missCount := s.missCount + 1 }
      let sb : V4State := { sa with
        uart := UART_ConsumeBytes sa.uart (UART_GetDataSize sa.uart) }
      if 3 ≤ sb.missCount then
        { sb with regIndex := (sb.regIndex + 1) % REG_TABLE_SIZE, missCount := 0 }
      else sb
  sendRequest s1 (tableEntry s1.regIndex).reg

/-- `HT7017_RunQuick` (part_003 lines 257-294). -/
def runQuick (s : V4State) : V4State :=
  if UART_GetDataSize s.uart < HT7017_RESPONSE_LEN then s
  else
    let d2 := UART_GetByte s.uart 0
    let d1 := UART_GetByte s.uart 1
    let d0 := UART_GetByte s.uart 2
    let cs := UART_GetByte s.uart 3
    let s1 : V4State := { s with uart := UART_ConsumeBytes s.uart HT7017_RESPONSE_LEN }
    let reg := (tableEntry s1.regIndex).reg
    match decodeFrame reg d2 d1 d0 cs with
    | none => { s1 with badFrames := s1.badFrames + 1 }
    | some raw =>
      let value : ℚ := (raw : ℚ) / (tableEntry s1.regIndex).scale
      { s1 with
        meas := s1.meas.set (tableEntry s1.regIndex).target value
        goodFrames := s1.goodFrames + 1
        missCount := 0 }

end V4

/-- `g_dco_V` = 0.00012f (calibration scalar of the switch-based drivers). -/
def g_dco_V : ℚ := 12 / 100000

/-- `g_dco_I` = 0.000015f. -/
def g_dco_I : ℚ := 15 / 1000000

/-- `g_dco_P` = 0.005f. -/
def g_dco_P : ℚ := 5 / 1000

/-- `(int32_t)` cast of an unsigned 32-bit value. -/
def toInt32 (x : Nat) : Int :=
  if x % 4294967296 < 2147483648 then (x % 4294967296 : Int)
  else (x % 4294967296 : Int) - 4294967296

/-- State of the switch-based decoders: the register address of the last
request (`g_last_cmd_addr` / `g_last_cmd`) and the measurement globals. -/
structure PPState where
  lastCmd : Nat
  volts : ℚ
  amps : ℚ
  power : ℚ
deriving DecidableEq, Repr

namespace PP

/-- `HT7017_ProcessPacket` (drv_ht7017.c lines 397-441; array subscripts taken
from the clean copy in part_001 lines 242-294): checksum over
`HEAD + CMD + D2 + D1 + D0` in `uint8_t` arithmetic, then scale by register;
the active-power register is 24-bit two's-complement — when bit 23 is set the
raw value is widened with `raw_val |= 0xFF000000` and cast to `int32_t`
before multiplying by `g_dco_P`. -/
def processPacket (s : PPState) (rx : List Nat) : PPState :=
  let d2 := rx.getD 0 0
  let d1 := rx.getD 1 0
  let d0 := rx.getD 2 0
  let chk := rx.getD 3 0
  let calculated := 255 - (FRAME_HEAD + s.lastCmd + d2 + d1 + d0) % 256
  if calculated ≠ chk then s
  else
    let raw := d2 <<< 16 ||| d1 <<< 8 ||| d0
    if s.lastCmd = HT7017_REG_RMS_U then
      { s with volts := (raw : ℚ) * g_dco_V }
    else if s.lastCmd = HT7017_REG_RMS_I1 then
      { s with amps := (raw : ℚ) * g_dco_I }
    else if s.lastCmd = HT7017_REG_POWER_P1 then
      if raw &&& 0x800000 ≠ 0 then
        { s with power := (toInt32 (raw ||| 0xFF000000) : ℚ) * g_dco_P }
      else
        { s with power := (raw : ℚ) * g_dco_P }
    else s

end PP

namespace P1

/-- `HT7017_RunQuick` of part_001 (first implementation, lines 134-142): when
at least 4 bytes are available it peeks them with `UART_GetRawData` and hands
them to its packet processor, but the function contains no
`UART_ConsumeBytes` call, so the receive buffer is left untouched.
The packet processing reuses `PP.processPacket` (the subscripts of part_001's
own `HT7017_ProcessPacket` are corrupted in the file; the clean copy of the
same function appears later in the same file). -/
def runQuick (u : Uart) (s : PPState) : Uart × PPState :=
  if 4 ≤ UART_GetDataSize u then
    (u, PP.processPacket s (UART_GetRawData u 4))
  else (u, s)

end P1

/-- State of part_002's second implementation: `g_last_reg`, the measurement
globals and its diagnostic counters `g_rx_count, g_pkt_count, g_chk_err`. -/
structure PRState where
  lastReg : Nat
  volts : ℚ
  amps : ℚ
  power : ℚ
  freq : ℚ
  rxCount : Nat
  pktCount : Nat
  chkErr : Nat
deriving DecidableEq, Repr

namespace PR

/-- `HT7017_ProcessResponse` (part_002 lines 244-300): checksum computed as
`~(rx[0] + rx[1] + rx[2])` in `uint8_t` arithmetic — the frame head and the
requested register are not folded in — and on mismatch the error counter is
incremented but processing continues ("We continue processing for debug
visibility"), so the raw value is still decoded and stored.
The `CHANNEL_Set` publications are external side effects, not modelled. -/
def processResponse (s : PRState) (rx : List Nat) : PRState :=
  let s0 : PRState := { s with rxCount := s.rxCount + 4, pktCount := s.pktCount + 1 }
  let d2 := rx.getD 0 0
  let d1 := rx.getD 1 0
  let d0 := rx.getD 2 0
  let chk := rx.getD 3 0
  let calcChk := 255 - (d2 + d1 + d0) % 256
  let s1 : PRState := if calcChk ≠ chk then { s0 with chkErr := s0.chkErr + 1 } else s0
  let raw := d2 <<< 16 ||| d1 <<< 8 ||| d0
  if s1.lastReg = HT7017_REG_RMS_U then
    { s1 with volts := (raw : ℚ) * g_dco_V }
  else if s1.lastReg = HT7017_REG_RMS_I1 then
    { s1 with amps := (raw : ℚ) * g_dco_I }
  else if s1.lastReg = HT7017_REG_POWER_P1 then
    if raw &&& 0x800000 ≠ 0 then
      { s1 with power := (toInt32 (raw ||| 0xFF000000) : ℚ) * g_dco_P }
    else
      { s1 with power := (raw : ℚ) * g_dco_P }
  else if s1.lastReg = HT7017_REG_FREQ then
    if 0 < raw then { s1 with freq := 1000000 / (raw : ℚ) } else s1
  else s1

end PR

end HT7017

namespace HT7017

/-! ### Helper lemmas about the drivers (shared, not claim theorems) -/

/-- Both table-driven collectors leave the register index unchanged. -/
theorem v3_runQuick_regIndex (s : V3State) :
    (V3.runQuick s).regIndex = s.regIndex := by
  simp only [V3.runQuick]
  split
  · rfl
  · split
    · rfl
    · split <;> rfl

/-- A v3 scheduler tick either keeps the register index or advances it one
step modulo the table size. -/
theorem v3_runEverySecond_regIndex (s : V3State) :
    (V3.runEverySecond s).regIndex = s.regIndex ∨
    (V3.runEverySecond s).regIndex = (s.regIndex + 1) % REG_TABLE_SIZE := by
  simp only [V3.runEverySecond, V3.sendRequest]
  split
  · exact Or.inl rfl
  · split
    · split
      · exact Or.inr rfl
      · exact Or.inl rfl
    · exact Or.inr rfl

end HT7017

namespace HT7017

/-- A v4 tick on an empty receive buffer with the miss counter still below the
retry bound: count the miss, stay on the same register, re-send its request. -/
theorem v4_tick_empty_retry (s : V4State) (hrx : s.uart.rx = [])
    (h : s.missCount + 1 < 3) :
    V4.runEverySecond s = { s with
      missCount := s.missCount + 1
      uart := ⟨[], s.uart.tx ++ [FRAME_HEAD, (tableEntry s.regIndex).reg]⟩
      txCount := s.txCount + 2 } := by
  have hnot : ¬ 3 ≤ s.missCount + 1 := by omega
  simp only [V4.runEverySecond, V4.sendRequest, UART_GetDataSize, UART_ConsumeBytes,
    UART_SendByte, UART_GetByte, hrx, HT7017_RESPONSE_LEN]
  simp [hnot]

/-- A v4 tick on an empty receive buffer when this is the third consecutive
miss: give up on the register, advance the index, reset the miss counter, and
send the next register's request. -/
theorem v4_tick_empty_skip (s : V4State) (hrx : s.uart.rx = [])
    (h : 3 ≤ s.missCount + 1) :
    V4.runEverySecond s = { s with
      missCount := 0
      regIndex := (s.regIndex + 1) % REG_TABLE_SIZE
      uart := ⟨[], s.uart.tx ++
        [FRAME_HEAD, (tableEntry ((s.regIndex + 1) % REG_TABLE_SIZE)).reg]⟩
      txCount := s.txCount + 2 } := by
  simp only [V4.runEverySecond, V4.sendRequest, UART_GetDataSize, UART_ConsumeBytes,
    UART_SendByte, UART_GetByte, hrx, HT7017_RESPONSE_LEN]
  simp [h]

end HT7017

namespace HT7017

/-- C1: the claim states that a 4-byte response for an in-flight request to
register `reg` is accepted exactly when the checksum byte equals
`(~(0x6A + reg + D2 + D1 + D0)) & 0xFF`, i.e. `255 - (sum % 256)`.  The
`HT7017_ProcessResponse` decode path of part_002 violates this: with the
in-flight register 0x08 and frame `[00 00 10 EF]` it counts no checksum error
(its check is `~(D2+D1+D0)` only — the head and register bytes are never
folded in) and stores the decoded voltage, although the claimed checksum is
0x7D ≠ 0xEF and the reference decoder `decodeFrame` rejects the frame. -/
theorem claim_C1_checksum_contract_code_bug :
    (0xEF : Nat) ≠ 255 - (FRAME_HEAD + HT7017_REG_RMS_U + 0 + 0 + 0x10) % 256 ∧
    decodeFrame HT7017_REG_RMS_U 0 0 0x10 0xEF = none ∧
    (PR.processResponse ⟨HT7017_REG_RMS_U, 0, 0, 0, 0, 0, 0, 0⟩ [0, 0, 0x10, 0xEF]).chkErr = 0 ∧
    (PR.processResponse ⟨HT7017_REG_RMS_U, 0, 0, 0, 0, 0, 0, 0⟩ [0, 0, 0x10, 0xEF]).volts ≠ 0 :=
  ⟨by decide, by decide, by decide,
   by simp [PR.processResponse, g_dco_V, HT7017_REG_RMS_U, HT7017_REG_RMS_I1]⟩

/-- C2: checksum round-trip — for every register byte and every data triple,
decoding the frame `[D2, D1, D0, HT7017_CalcChecksum reg D2 D1 D0]` against
the same register succeeds (no checksum error) and yields the 24-bit
big-endian raw value `(D2 << 16) | (D1 << 8) | D0`, which is below `2 ^ 24`. -/
theorem claim_C2_checksum_roundtrip (reg d2 d1 d0 : Nat)
    (hreg : reg < 256) (h2 : d2 < 256) (h1 : d1 < 256) (h0 : d0 < 256) :
    decodeFrame reg d2 d1 d0 (HT7017_CalcChecksum reg d2 d1 d0)
      = some (d2 <<< 16 ||| d1 <<< 8 ||| d0) ∧
    d2 <<< 16 ||| d1 <<< 8 ||| d0 < 2 ^ 24 := by
  constructor
  · simp [decodeFrame]
  · have hb0 : d0 < 2 ^ 8 := h0
    have hb1 : d1 < 2 ^ 8 := h1
    have hb2 : d2 < 2 ^ 8 := h2
    have hlo : d1 <<< 8 ||| d0 < 2 ^ 16 := by
      have h' := Nat.append_lt hb0 hb1
      simpa using h'
    have hhi := Nat.append_lt hlo hb2
    rw [Nat.lor_assoc]
    simpa using hhi

/-- C2 witness: the round-trip theorem applied to the concrete voltage frame
`reg = 0x08, D2 = 0x29, D1 = 0x10, D0 = 0x00` of the spec's scenario. -/
theorem claim_C2_witness :
    (0x08 : Nat) < 256 ∧ (0x29 : Nat) < 256 ∧ (0x10 : Nat) < 256 ∧ (0 : Nat) < 256 ∧
    (decodeFrame 0x08 0x29 0x10 0 (HT7017_CalcChecksum 0x08 0x29 0x10 0)
        = some (0x29 <<< 16 ||| 0x10 <<< 8 ||| 0) ∧
      0x29 <<< 16 ||| 0x10 <<< 8 ||| 0 < 2 ^ 24) :=
  ⟨by decide, by decide, by decide, by decide,
   claim_C2_checksum_roundtrip 0x08 0x29 0x10 0 (by decide) (by decide) (by decide) (by decide)⟩

/-- C3: the claim states that a frame whose checksum byte does not match is
never accepted — the bad-frame counter is incremented and no measurement is
modified.  The `HT7017_ProcessResponse` path of part_002 violates the second
half: on the frame `[29 10 00 00]` (checksum wrong under both its own formula
and the full-sum contract, as `decodeFrame` confirms) it does count the error
(`chkErr = 1`) but then decodes the frame anyway and overwrites the voltage
measurement.  In contrast, the table-driven `HT7017_RunQuick` of
drv_ht7017.c rejects the same frame: `badFrames` becomes 1 and every
measurement retains its previous value. -/
theorem claim_C3_bad_frame_never_accepted_code_bug :
    (0 : Nat) ≠ 255 - (0x29 + 0x10 + 0) % 256 ∧
    decodeFrame HT7017_REG_RMS_U 0x29 0x10 0 0 = none ∧
    (PR.processResponse ⟨HT7017_REG_RMS_U, 0, 0, 0, 0, 0, 0, 0⟩ [0x29, 0x10, 0, 0]).chkErr = 1 ∧
    (PR.processResponse ⟨HT7017_REG_RMS_U, 0, 0, 0, 0, 0, 0, 0⟩ [0x29, 0x10, 0, 0]).volts ≠ 0 ∧
    (V3.runQuick ⟨⟨[0x29, 0x10, 0, 0], []⟩, 0, true, false, 0, 0, 0, 0, ⟨244, 1, 2, 50⟩⟩).meas
      = ⟨244, 1, 2, 50⟩ ∧
    (V3.runQuick ⟨⟨[0x29, 0x10, 0, 0], []⟩, 0, true, false, 0, 0, 0, 0, ⟨244, 1, 2, 50⟩⟩).badFrames
      = 1 :=
  ⟨by decide, by decide, by decide,
   by simp [PR.processResponse, g_dco_V, HT7017_REG_RMS_U, HT7017_REG_RMS_I1],
   by decide, by decide⟩

/-- C4: the claim states that an accepted active-power frame with bit 23 set
is sign-extended before scaling (raw `0xFFFFF0`, scale 0.005 → power −0.08).
The table-driven `HT7017_RunQuick` of drv_ht7017.c violates this: on the
power rotation entry (index 2, register 0x0A) it accepts the frame
`[FF FF F0 9D]` (valid checksum) and stores the unsigned value
`16777200 / HT7017_POWER_SCALE = 16777200` — strictly positive, with no sign
extension.  The switch-based `HT7017_ProcessPacket` in the same repository
implements the claimed behaviour: it widens the raw value with
`raw |= 0xFF000000`, casts to `int32_t` (−16) and yields
`−16 × 0.005 = −0.08 = −2/25`. -/
theorem claim_C4_power_sign_extension_code_bug :
    HT7017_CalcChecksum HT7017_REG_POWER_P1 0xFF 0xFF 0xF0 = 0x9D ∧
    (tableEntry 2).reg = HT7017_REG_POWER_P1 ∧
    (tableEntry 2).target = Quantity.power ∧
    (V3.runQuick ⟨⟨[0xFF, 0xFF, 0xF0, 0x9D], []⟩, 2, true, false, 0, 0, 0, 0, ⟨0, 0, 0, 0⟩⟩).goodFrames
      = 1 ∧
    (V3.runQuick ⟨⟨[0xFF, 0xFF, 0xF0, 0x9D], []⟩, 2, true, false, 0, 0, 0, 0, ⟨0, 0, 0, 0⟩⟩).meas.power
      = 16777200 ∧
    toInt32 (0xFFFFF0 ||| 0xFF000000) = -16 ∧
    (PP.processPacket ⟨HT7017_REG_POWER_P1, 0, 0, 0⟩ [0xFF, 0xFF, 0xF0, 0x9D]).power = -2/25 :=
  ⟨by decide, by decide, by decide, by decide,
   by
    simp [V3.runQuick, decodeFrame, HT7017_CalcChecksum, UART_GetByte, UART_GetDataSize,
      UART_ConsumeBytes, tableEntry, g_regTable, Meas.set, FRAME_HEAD, HT7017_RESPONSE_LEN,
      HT7017_REG_POWER_P1, HT7017_POWER_SCALE],
   by decide,
   by
    simp [PP.processPacket, g_dco_P, toInt32, FRAME_HEAD, HT7017_REG_POWER_P1,
      HT7017_REG_RMS_U, HT7017_REG_RMS_I1]
    norm_num⟩

/-- C7: the claim states that whenever the collector sees at least 4 buffered
bytes it peeks exactly 4 and strictly afterwards consumes exactly 4.  The
first `HT7017_RunQuick` of part_001 violates this: with 5 bytes available it
peeks the first 4 (`UART_GetRawData`) and processes them, but performs no
`UART_ConsumeBytes` call, leaving the receive buffer untouched (0 bytes
consumed, so the same stale bytes are re-read on every later invocation).
The `HT7017_RunQuick` of drv_ht7017.c behaves as claimed on the same input:
it decodes the first 4 bytes and consumes exactly 4, leaving only the 5th. -/
theorem claim_C7_read_then_consume_code_bug :
    4 ≤ UART_GetDataSize ⟨[0x11, 0x22, 0x33, 0x44, 0x55], []⟩ ∧
    UART_GetRawData ⟨[0x11, 0x22, 0x33, 0x44, 0x55], []⟩ 4 = [0x11, 0x22, 0x33, 0x44] ∧
    (P1.runQuick ⟨[0x11, 0x22, 0x33, 0x44, 0x55], []⟩ ⟨HT7017_REG_RMS_U, 0, 0, 0⟩).1
      = ⟨[0x11, 0x22, 0x33, 0x44, 0x55], []⟩ ∧
    (V3.runQuick ⟨⟨[0x11, 0x22, 0x33, 0x44, 0x55], []⟩, 0, true, false, 0, 0, 0, 0, ⟨0, 0, 0, 0⟩⟩).uart.rx
      = [0x55] :=
  ⟨by decide, by decide, by decide, by decide⟩

/-- C10: after `HT7017_Init` the register index is `REG_TABLE_SIZE - 1`, so
the very first scheduler tick wraps it to 0 — the voltage entry (register
0x08) — and transmits exactly the request frame `[0x6A, 0x08]`. -/
theorem claim_C10_first_request_voltage :
    V3.initState.regIndex = REG_TABLE_SIZE - 1 ∧
    (V3.runEverySecond V3.initState).regIndex = 0 ∧
    (tableEntry 0).reg = HT7017_REG_RMS_U ∧
    HT7017_REG_RMS_U = 0x08 ∧
    (V3.runEverySecond V3.initState).uart.tx = [FRAME_HEAD, HT7017_REG_RMS_U] :=
  ⟨by decide, by decide, by decide, by decide, by decide⟩

end HT7017

namespace HT7017

/-- Every v4 scheduler tick ends by flushing the receive buffer and then
emitting the 2-byte request for the register finally selected. -/
theorem v4_tick_flushes (s : V4State) :
    (V4.runEverySecond s).uart.rx = [] ∧
    (V4.runEverySecond s).uart.tx
      = s.uart.tx ++ [FRAME_HEAD, (tableEntry (V4.runEverySecond s).regIndex).reg] := by
  simp only [V4.runEverySecond]
  split
  · split <;>
      (constructor <;>
        simp [V4.sendRequest, UART_ConsumeBytes, UART_SendByte, UART_GetDataSize] <;>
        omega)
  · split <;>
      (constructor <;>
        simp [V4.sendRequest, UART_ConsumeBytes, UART_SendByte, UART_GetDataSize] <;>
        omega)

/-- A v3 scheduler tick either emits nothing (handshake guard, state
unchanged) or flushes the receive buffer and emits the 2-byte request for the
register finally selected. -/
theorem v3_tick_flushes (s : V3State) :
    V3.runEverySecond s = s ∨
    ((V3.runEverySecond s).uart.rx = [] ∧
     (V3.runEverySecond s).uart.tx
       = s.uart.tx ++ [FRAME_HEAD, (tableEntry (V3.runEverySecond s).regIndex).reg]) := by
  simp only [V3.runEverySecond]
  split
  · exact Or.inl rfl
  · refine Or.inr ?_
    split
    · split <;>
        (constructor <;>
          simp [V3.sendRequest, UART_ConsumeBytes, UART_SendByte, UART_GetDataSize])
    · constructor <;>
        simp [V3.sendRequest, UART_ConsumeBytes, UART_SendByte, UART_GetDataSize]

/-- C5: retry policy — starting from any v4 state with miss counter 0 and an
empty receive buffer, three consecutive ticks that each observe no response
advance the register index exactly once in total: the first two ticks keep the
index and re-transmit the request for the same register, the third tick
advances the index one step (modulo the table size, hence to a different
register) and leaves the miss counter at 0 for the next register. -/
theorem claim_C5_retry_policy (s : V4State) (hmiss : s.missCount = 0)
    (hrx : s.uart.rx = []) (hidx : s.regIndex < REG_TABLE_SIZE) :
    (V4.runEverySecond s).regIndex = s.regIndex ∧
    (V4.runEverySecond (V4.runEverySecond s)).regIndex = s.regIndex ∧
    (V4.runEverySecond s).uart.tx
      = s.uart.tx ++ [FRAME_HEAD, (tableEntry s.regIndex).reg] ∧
    (V4.runEverySecond (V4.runEverySecond s)).uart.tx
      = (V4.runEverySecond s).uart.tx ++ [FRAME_HEAD, (tableEntry s.regIndex).reg] ∧
    (V4.runEverySecond (V4.runEverySecond (V4.runEverySecond s))).regIndex
      = (s.regIndex + 1) % REG_TABLE_SIZE ∧
    (V4.runEverySecond (V4.runEverySecond (V4.runEverySecond s))).regIndex ≠ s.regIndex ∧
    (V4.runEverySecond (V4.runEverySecond (V4.runEverySecond s))).missCount = 0 := by
  obtain ⟨⟨rx, tx⟩, i, mc, tc, gf, bf, m⟩ := s
  replace hmiss : mc = 0 := hmiss
  replace hrx : rx = [] := hrx
  replace hidx : i < REG_TABLE_SIZE := hidx
  subst hmiss
  subst hrx
  have e1 := v4_tick_empty_retry ⟨⟨[], tx⟩, i, 0, tc, gf, bf, m⟩ rfl (by norm_num)
  norm_num at e1
  rw [e1]
  have e2 := v4_tick_empty_retry
    ⟨⟨[], tx ++ [FRAME_HEAD, (tableEntry i).reg]⟩, i, 1, tc + 2, gf, bf, m⟩ rfl (by norm_num)
  norm_num at e2
  rw [e2]
  have e3 := v4_tick_empty_skip
    ⟨⟨[], tx ++ [FRAME_HEAD, (tableEntry i).reg] ++ [FRAME_HEAD, (tableEntry i).reg]⟩,
      i, 2, tc + 4, gf, bf, m⟩ rfl (by norm_num)
  norm_num at e3
  rw [e3]
  have h4 : REG_TABLE_SIZE = 4 := rfl
  refine ⟨rfl, rfl, rfl, by simp, rfl, ?_, rfl⟩
  show (i + 1) % REG_TABLE_SIZE ≠ i
  rw [h4] at hidx ⊢
  omega

/-- C5 witness: the retry-policy theorem applied to the freshly initialized v4
state (miss counter 0, empty buffer, index 3): after three response-less
ticks the index has advanced exactly once, to `(3 + 1) % 4 = 0`, with the
miss counter reset. -/
theorem claim_C5_witness :
    V4.initState.missCount = 0 ∧ V4.initState.uart.rx = [] ∧
    V4.initState.regIndex < REG_TABLE_SIZE ∧
    (V4.runEverySecond (V4.runEverySecond (V4.runEverySecond V4.initState))).regIndex
      = (V4.initState.regIndex + 1) % REG_TABLE_SIZE ∧
    (V4.runEverySecond (V4.runEverySecond (V4.runEverySecond V4.initState))).missCount = 0 :=
  ⟨rfl, rfl, by decide,
   (claim_C5_retry_policy V4.initState rfl rfl (by decide)).2.2.2.2.1,
   (claim_C5_retry_policy V4.initState rfl rfl (by decide)).2.2.2.2.2.2⟩

/-- C6: stale-byte isolation — `HT7017_SendRequest` (in both table-driven
drivers) first discards every byte still in the receive buffer, whatever its
count, and only then emits the 2-byte request `[0x6A, reg]`; consequently the
receive buffer is empty after every emitting scheduler tick, so bytes left
over from an earlier transaction can never be concatenated with bytes of the
next response.  A v3 tick blocked by the handshake guard emits nothing and
changes nothing. -/
theorem claim_C6_flush_before_send :
    (∀ (s : V3State) (reg : Nat),
        (V3.sendRequest s reg).uart.rx = [] ∧
        (V3.sendRequest s reg).uart.tx = s.uart.tx ++ [FRAME_HEAD, reg]) ∧
    (∀ (s : V4State) (reg : Nat),
        (V4.sendRequest s reg).uart.rx = [] ∧
        (V4.sendRequest s reg).uart.tx = s.uart.tx ++ [FRAME_HEAD, reg]) ∧
    (∀ s : V4State,
        (V4.runEverySecond s).uart.rx = [] ∧
        (V4.runEverySecond s).uart.tx
          = s.uart.tx ++ [FRAME_HEAD, (tableEntry (V4.runEverySecond s).regIndex).reg]) ∧
    (∀ s : V3State,
        V3.runEverySecond s = s ∨
        ((V3.runEverySecond s).uart.rx = [] ∧
         (V3.runEverySecond s).uart.tx
           = s.uart.tx ++ [FRAME_HEAD, (tableEntry (V3.runEverySecond s).regIndex).reg])) := by
  refine ⟨?_, ?_, v4_tick_flushes, v3_tick_flushes⟩
  · intro s reg
    constructor <;>
      simp [V3.sendRequest, UART_ConsumeBytes, UART_SendByte, UART_GetDataSize]
  · intro s reg
    constructor <;>
      simp [V4.sendRequest, UART_ConsumeBytes, UART_SendByte, UART_GetDataSize]

/-- C8: the collector is a no-op when nothing is expected or the frame is
incomplete — if the v3 `HT7017_RunQuick` is invoked with `g_waiting` false, or
with fewer than 4 buffered bytes, the whole driver state (measurements,
counters, flags, receive buffer) is returned unchanged; likewise the v4
`HT7017_RunQuick` with fewer than 4 buffered bytes. -/
theorem claim_C8_collector_noop (s3 : V3State) (s4 : V4State)
    (h3 : s3.waiting = false ∨ UART_GetDataSize s3.uart < HT7017_RESPONSE_LEN)
    (h4 : UART_GetDataSize s4.uart < HT7017_RESPONSE_LEN) :
    V3.runQuick s3 = s3 ∧ V4.runQuick s4 = s4 := by
  constructor
  · rcases h3 with h | h
    · simp [V3.runQuick, h]
    · simp [V3.runQuick, h]
  · simp [V4.runQuick, h4]

/-- C8 witness: the no-op theorem applied to the freshly initialized states
(nothing expected, empty buffer). -/
theorem claim_C8_witness :
    V3.runQuick V3.initState = V3.initState ∧ V4.runQuick V4.initState = V4.initState :=
  claim_C8_collector_noop V3.initState V4.initState (Or.inl rfl) (by decide)

/-- C9: in every state reachable from initialization by any interleaving of
scheduler ticks, collector invocations and byte arrivals, the register index
is a valid index into the fixed-size rotation table
(`regIndex < REG_TABLE_SIZE`), so every table access through it is in
bounds. -/
theorem claim_C9_register_index_in_bounds (s : V3State) (h : V3.Reachable s) :
    s.regIndex < REG_TABLE_SIZE := by
  induction h with
  | init => decide
  | step hr hst ih =>
    cases hst with
    | tick =>
      rcases v3_runEverySecond_regIndex _ with h2 | h2
      · rw [h2]; exact ih
      · rw [h2]; exact Nat.mod_lt _ (by decide)
    | quick => rw [v3_runQuick_regIndex]; exact ih
    | recv bs => exact ih

/-- C9 witness: the invariant applied to the initial state itself. -/
theorem claim_C9_witness : V3.initState.regIndex < REG_TABLE_SIZE :=
  claim_C9_register_index_in_bounds V3.initState V3.Reachable.init

end HT7017
